import Mathlib

set_option autoImplicit false

/-!
Shallow embedding of `src/sandbox/server/session_store.py`.

The file is a pluggable session store: a `SessionData` record with JSON
serialisation helpers, an in-memory backend (`MemorySessionStore`), a
Redis-backed backend (`RedisSessionStore`), and a factory (`get_store`)
that picks a backend from environment variables.

Modelling decisions:
* Python `time.time()` timestamps and JSON floats are modelled as rationals
  (`ℚ`); CPython round-trips finite floats through `json` exactly, so the
  value-level model is faithful for round-trip claims.
* `json.dumps` / `json.loads` are modelled at the JSON *value* level: a
  `JValue` inductive stands for the parsed document, `SessionData.dumps`
  produces the `JValue` that the Python dict literal denotes, and
  `SessionData.loads` consumes a `JValue`.  Python's dynamic typing is kept:
  `loads` performs no shape check on the values it extracts, so it returns a
  `DynSessionData` whose fields are raw `JValue`s, exactly as the Python
  constructor stores whatever it is handed.
* Each store backend is state-passing: the memory backend's state is the
  dict `String → Option SessionData`, the Redis backend's state is the
  keyspace `String → Option (JValue × Int)` mapping a key to the stored
  payload and the `ex` expiry argument last set for it.
* Python exceptions (`KeyError` on a missing dict key, `TypeError` on
  non-numeric arithmetic) are modelled with `Except String`.
-/

/-- JSON values as produced by `json.loads` / consumed by `json.dumps`.
Numbers keep Python's int/float distinction: `jint` for ints, `jnum` for
floats (modelled as rationals).  An object is an association list with the
keys of a Python dict (unique, insertion-ordered). -/
inductive JValue where
  | jnull : JValue
  | jbool (b : Bool) : JValue
  | jint (n : Int) : JValue
  | jnum (q : ℚ) : JValue
  | jstr (s : String) : JValue
  | jarr (xs : List JValue) : JValue
  | jobj (fields : List (String × JValue)) : JValue

/-- Python dict subscript `obj[k]` on a parsed JSON document: a lookup on an
object, failure (`none`) on a missing key or a non-object. -/
def jget (v : JValue) (k : String) : Option JValue :=
  match v with
  | JValue.jobj fields => (fields.find? (fun p => p.1 == k)).map Prod.snd
  | _ => none

/-- Python truthiness of a JSON value (`bool(v)`): `None`, `False`, zero,
the empty string, the empty array and the empty object are falsy. -/
def jtruthy : JValue → Bool
  | JValue.jnull => false
  | JValue.jbool b => b
  | JValue.jint n => n != 0
  | JValue.jnum q => q != 0
  | JValue.jstr s => s != ""
  | JValue.jarr xs => !xs.isEmpty
  | JValue.jobj fields => !fields.isEmpty

/-- Python numeric coercion used by `-` and `>`: ints, floats and bools are
numbers; anything else raises `TypeError` (`none`). -/
def jnumval : JValue → Option ℚ
  | JValue.jint n => some (n : ℚ)
  | JValue.jnum q => some q
  | JValue.jbool b => some (if b then 1 else 0)
  | _ => none

/-- The session record `SessionData` as the code intends it: `language` a
string, `ttl` an int (seconds), `last_used` a timestamp, `files` a dict of
path → content. -/
structure SessionData where
  language : String
  ttl : Int
  last_used : ℚ
  files : List (String × String)
  deriving DecidableEq

/-- The dynamically-typed `SessionData` instance that `SessionData.loads`
actually builds: Python performs no shape check, so each field is the raw
JSON value extracted from the payload. -/
structure DynSessionData where
  language : JValue
  ttl : JValue
  last_used : JValue
  files : JValue

/-- `self.files = files or {}` on the files component of `dumps`. -/
def encodeFiles (fs : List (String × String)) : List (String × JValue) :=
  fs.map (fun p => (p.1, JValue.jstr p.2))

/-- `SessionData.dumps`: the JSON document
`{"language": .., "ttl": .., "last_used": .., "files": ..}`. -/
def SessionData.dumps (s : SessionData) : JValue :=
  JValue.jobj
    [ ("language", JValue.jstr s.language)
    , ("ttl", JValue.jint s.ttl)
    , ("last_used", JValue.jnum s.last_used)
    , ("files", JValue.jobj (encodeFiles s.files)) ]

/-- The image of a typed record among dynamic records: the fields
`SessionData.loads` recovers from `SessionData.dumps`. -/
def SessionData.toDyn (s : SessionData) : DynSessionData :=
  { language := JValue.jstr s.language
  , ttl := JValue.jint s.ttl
  , last_used := JValue.jnum s.last_used
  , files := JValue.jobj (encodeFiles s.files) }

/-- `SessionData.loads`: subscripts `obj["language"]`, `obj["ttl"]`,
`obj["files"]` (constructor call, which applies the `files or {}`
truthiness coercion), then `obj["last_used"]`.  A missing key raises
`KeyError`; extracted values are stored without any shape check. -/
def SessionData.loads (payload : JValue) : Except String DynSessionData :=
  match jget payload "language" with
  | none => Except.error "KeyError: language"
  | some lang =>
    match jget payload "ttl" with
    | none => Except.error "KeyError: ttl"
    | some t =>
      match jget payload "files" with
      | none => Except.error "KeyError: files"
      | some fs =>
        match jget payload "last_used" with
        | none => Except.error "KeyError: last_used"
        | some lu =>
          Except.ok
            { language := lang, ttl := t, last_used := lu
            , files := if jtruthy fs then fs else JValue.jobj [] }

/-- `SessionData.touch`: sets `last_used` to the current time. -/
def SessionData.touch (s : SessionData) (now : ℚ) : SessionData :=
  { s with last_used := now }

/-- `SessionData.expired`: `time.time() - self.last_used > self.ttl`. -/
def SessionData.expired (s : SessionData) (now : ℚ) : Bool :=
  decide (now - s.last_used > (s.ttl : ℚ))

/-- `data.expired()` called on the dynamically-typed record `loads` returns:
Python arithmetic on the raw field values, raising `TypeError` when either
is not a number. -/
def DynSessionData.expired (d : DynSessionData) (now : ℚ) : Except String Bool :=
  match jnumval d.last_used, jnumval d.ttl with
  | some lu, some t => Except.ok (decide (now - lu > t))
  | _, _ => Except.error "TypeError: unsupported operand type"

/-- State of `MemorySessionStore`: the dict `self._store`. -/
def MemStore : Type := String → Option SessionData

/-- `MemorySessionStore.create`: `self._store[sid] = data`. -/
def MemorySessionStore.create (st : MemStore) (sid : String) (data : SessionData) : MemStore :=
  fun k => if k = sid then some data else st k

/-- `MemorySessionStore.save`: `self._store[sid] = data`. -/
def MemorySessionStore.save (st : MemStore) (sid : String) (data : SessionData) : MemStore :=
  fun k => if k = sid then some data else st k

/-- `MemorySessionStore.delete`: `self._store.pop(sid, None)` — no error
when absent. -/
def MemorySessionStore.delete (st : MemStore) (sid : String) : MemStore :=
  fun k => if k = sid then none else st k

/-- `MemorySessionStore.get`: returns the record, except that an expired
record is deleted and `None` returned.  The result pairs the returned value
with the store state after the call. -/
def MemorySessionStore.get (st : MemStore) (sid : String) (now : ℚ) :
    Option SessionData × MemStore :=
  match st sid with
  | none => (none, st)
  | some data =>
    if data.expired now then (none, MemorySessionStore.delete st sid)
    else (some data, st)

/-- State of the Redis keyspace seen by `RedisSessionStore`: each key maps
to the stored payload and the `ex` expiry (seconds) last set for it. -/
def RedisState : Type := String → Option (JValue × Int)

/-- `RedisSessionStore._key`: `f"sf:session:{sid}"`. -/
def RedisSessionStore.key (sid : String) : String :=
  "sf:session:" ++ sid

/-- `RedisSessionStore.delete`: `await self._r.delete(self._key(sid))` —
removes the namespaced key, no error when absent. -/
def RedisSessionStore.delete (st : RedisState) (sid : String) : RedisState :=
  fun k => if k = RedisSessionStore.key sid then none else st k

/-- `RedisSessionStore.save`: `await self._r.set(self._key(sid),
data.dumps(), ex=data.ttl)`. -/
def RedisSessionStore.save (st : RedisState) (sid : String) (data : SessionData) : RedisState :=
  fun k => if k = RedisSessionStore.key sid then some (data.dumps, data.ttl) else st k

/-- `RedisSessionStore.create`: `await self.save(sid, data)`. -/
def RedisSessionStore.create (st : RedisState) (sid : String) (data : SessionData) : RedisState :=
  RedisSessionStore.save st sid data

/-- `RedisSessionStore.get`: fetch by namespaced key; absent → `None`;
otherwise deserialize, and if expired, delete then return `None`.  The
`Except` layer carries any Python exception out of `loads`/`expired`. -/
def RedisSessionStore.get (st : RedisState) (sid : String) (now : ℚ) :
    Except String (Option DynSessionData) × RedisState :=
  match st (RedisSessionStore.key sid) with
  | none => (Except.ok none, st)
  | some payload =>
    match SessionData.loads payload.1 with
    | Except.error e => (Except.error e, st)
    | Except.ok data =>
      match data.expired now with
      | Except.error e => (Except.error e, st)
      | Except.ok true => (Except.ok none, RedisSessionStore.delete st sid)
      | Except.ok false => (Except.ok (some data), st)

/-- The backend chosen by the factory, with the connection string the
Redis client is constructed from (`redis.from_url` does not connect
eagerly, so construction itself cannot fail). -/
inductive StoreChoice where
  | redisStore (url : String) : StoreChoice
  | memoryStore : StoreChoice
  deriving DecidableEq

/-- Python `a or b` on `os.getenv` results: the first operand when it is
truthy (a non-empty string), otherwise the second. -/
def pyOrStr (a b : Option String) : Option String :=
  match a with
  | some s => if s = "" then b else some s
  | none => b

/-- `get_store`: `redis_url = os.getenv("REDIS_URL") or os.getenv("REDIS_URI")`;
a truthy result selects the Redis store, otherwise the memory store. -/
def get_store (env : String → Option String) : StoreChoice :=
  match pyOrStr (env "REDIS_URL") (env "REDIS_URI") with
  | some s => if s = "" then StoreChoice.memoryStore else StoreChoice.redisStore s
  | none => StoreChoice.memoryStore

-- ---------------------------------------------------------------------
-- Helper lemmas
-- ---------------------------------------------------------------------

/-- Deserialising a serialised record recovers exactly its four fields. -/
theorem loads_dumps (s : SessionData) :
    SessionData.loads s.dumps = Except.ok s.toDyn := by
  obtain ⟨l, t, u, fs⟩ := s
  cases fs <;> rfl

/-- On the dynamic image of a typed record, the dynamic expiry check agrees
with the typed one and raises nothing. -/
theorem dyn_expired_toDyn (s : SessionData) (now : ℚ) :
    s.toDyn.expired now = Except.ok (s.expired now) := rfl

-- ---------------------------------------------------------------------
-- Sample data shared by the witnesses
-- ---------------------------------------------------------------------

/-- A concrete session record: `SessionData("python", 2, {"a.py": "x"})`
created at time 0. -/
def d0 : SessionData :=
  { language := "python", ttl := 2, last_used := 0, files := [("a.py", "x")] }

/-- A memory store holding `d0` under id `"abc"`. -/
def stP0 : MemStore := fun k => if k = "abc" then some d0 else none

/-- An empty memory store. -/
def stA0 : MemStore := fun _ => none

/-- A Redis keyspace holding the serialisation of `d0` under the
namespaced key for id `"abc"`. -/
def rstP0 : RedisState :=
  fun k => if k = RedisSessionStore.key "abc" then some (d0.dumps, 2) else none

/-- An empty Redis keyspace. -/
def rstA0 : RedisState := fun _ => none

/-- An environment with only `REDIS_URL` set. -/
def envR : String → Option String :=
  fun k => if k = "REDIS_URL" then some "redis://localhost:6379/0" else none

/-- An environment with only `REDIS_URI` set. -/
def envI : String → Option String :=
  fun k => if k = "REDIS_URI" then some "redis://example:6379/1" else none

/-- An environment with neither variable set. -/
def envN : String → Option String := fun _ => none

/-- A payload whose four required fields are all present but all of the
wrong shape. -/
def badPayload : JValue :=
  JValue.jobj
    [ ("language", JValue.jint 7)
    , ("ttl", JValue.jstr "two")
    , ("last_used", JValue.jnull)
    , ("files", JValue.jstr "f") ]

/-- A well-formed concrete payload. -/
def p1 : JValue :=
  JValue.jobj
    [ ("language", JValue.jstr "py")
    , ("ttl", JValue.jint 1)
    , ("last_used", JValue.jnum 0)
    , ("files", JValue.jobj []) ]

/-- A payload with all four keys whose `files` value is `null`. -/
def pNull : JValue :=
  JValue.jobj
    [ ("language", JValue.jstr "py")
    , ("ttl", JValue.jint 1)
    , ("last_used", JValue.jnum 0)
    , ("files", JValue.jnull) ]

-- ---------------------------------------------------------------------
-- Claim theorems
-- ---------------------------------------------------------------------

/-- C2: a record is expired iff `now - last_used > ttl`; with `ttl = T` and
`last_used = t0`, the check is false at `t0 + T - ε` and true at
`t0 + T + ε` for every `ε > 0`; `SessionData.expired` is a pure function of
`now`, `last_used` and `ttl`. -/
theorem expired_window (r : SessionData) (now ε : ℚ) (hε : 0 < ε) :
    (r.expired now = true ↔ now - r.last_used > (r.ttl : ℚ)) ∧
    r.expired (r.last_used + r.ttl - ε) = false ∧
    r.expired (r.last_used + r.ttl + ε) = true := by
  refine ⟨by simp [SessionData.expired], ?_, ?_⟩
  · simp only [SessionData.expired, decide_eq_false_iff_not, not_lt]
    linarith
  · simp only [SessionData.expired, decide_eq_true_eq]
    linarith

/-- Witness for C2 at `d0` (ttl 2, last_used 0), `now = 5`, `ε = 1`. -/
theorem expired_window_witness :
    (d0.expired 5 = true ↔ (5 : ℚ) - d0.last_used > (d0.ttl : ℚ)) ∧
    d0.expired (d0.last_used + d0.ttl - 1) = false ∧
    d0.expired (d0.last_used + d0.ttl + 1) = true :=
  expired_window d0 5 1 (by norm_num)

/-- C3: serialisation round-trips — `loads (dumps R)` succeeds and yields a
record whose `language`, `ttl`, `last_used` and `files` are exactly those
of `R`. -/
theorem dumps_loads_roundtrip (s : SessionData) :
    SessionData.loads s.dumps = Except.ok s.toDyn ∧
    s.toDyn.language = JValue.jstr s.language ∧
    s.toDyn.ttl = JValue.jint s.ttl ∧
    s.toDyn.last_used = JValue.jnum s.last_used ∧
    s.toDyn.files = JValue.jobj (encodeFiles s.files) :=
  ⟨loads_dumps s, rfl, rfl, rfl, rfl⟩

/-- C7: in the Redis store, `create` and `save` are the same operation:
both set the key `"sf:session:" ++ sid` to the serialised record with the
expiry directive `ex = ttl`, for every state, id and record. -/
theorem redis_create_eq_save (st : RedisState) (sid : String) (data : SessionData) :
    RedisSessionStore.create st sid data = RedisSessionStore.save st sid data ∧
    RedisSessionStore.create st sid data
      = fun k => if k = "sf:session:" ++ sid then some (data.dumps, data.ttl) else st k :=
  ⟨rfl, rfl⟩

/-- C9: `delete` is idempotent for both backends: it removes an existing
record, is a no-op (not an error) on an absent id, and repeating it changes
nothing. -/
theorem delete_idempotent (stE stA : MemStore) (rstE rstA : RedisState)
    (sid : String) (d : SessionData) (pl : JValue × Int)
    (hmE : stE sid = some d) (hmA : stA sid = none)
    (hrE : rstE (RedisSessionStore.key sid) = some pl)
    (hrA : rstA (RedisSessionStore.key sid) = none) :
    (MemorySessionStore.delete stE sid) sid = none ∧
    MemorySessionStore.delete stA sid = stA ∧
    MemorySessionStore.delete (MemorySessionStore.delete stE sid) sid
      = MemorySessionStore.delete stE sid ∧
    (RedisSessionStore.delete rstE sid) (RedisSessionStore.key sid) = none ∧
    RedisSessionStore.delete rstA sid = rstA ∧
    RedisSessionStore.delete (RedisSessionStore.delete rstE sid) sid
      = RedisSessionStore.delete rstE sid := by
  refine ⟨by simp [MemorySessionStore.delete], ?_, ?_,
          by simp [RedisSessionStore.delete], ?_, ?_⟩
  · funext k
    by_cases h : k = sid <;> simp [MemorySessionStore.delete, h, hmA.symm]
  · funext k
    by_cases h : k = sid <;> simp [MemorySessionStore.delete, h]
  · funext k
    by_cases h : k = RedisSessionStore.key sid <;>
      simp [RedisSessionStore.delete, h, hrA.symm]
  · funext k
    by_cases h : k = RedisSessionStore.key sid <;> simp [RedisSessionStore.delete, h]

/-- Witness for C9 at id `"abc"`, a store holding `d0` and an empty store,
for both backends. -/
theorem delete_idempotent_witness :
    (MemorySessionStore.delete stP0 "abc") "abc" = none ∧
    MemorySessionStore.delete stA0 "abc" = stA0 ∧
    MemorySessionStore.delete (MemorySessionStore.delete stP0 "abc") "abc"
      = MemorySessionStore.delete stP0 "abc" ∧
    (RedisSessionStore.delete rstP0 "abc") (RedisSessionStore.key "abc") = none ∧
    RedisSessionStore.delete rstA0 "abc" = rstA0 ∧
    RedisSessionStore.delete (RedisSessionStore.delete rstP0 "abc") "abc"
      = RedisSessionStore.delete rstP0 "abc" :=
  delete_idempotent stP0 stA0 rstP0 rstA0 "abc" d0 (d0.dumps, 2) rfl rfl rfl rfl

/-- C1: for both backends, `get` returns the stored record when present and
not expired and absence otherwise; an expired record is deleted as a side
effect before absence is returned, and the post-state shows it removed. -/
theorem get_lazy_expiration (stP stA : MemStore) (rstP rstA : RedisState)
    (sid : String) (now : ℚ) (d r : SessionData) (ex : Int)
    (hm : stP sid = some d) (hma : stA sid = none)
    (hr : rstP (RedisSessionStore.key sid) = some (r.dumps, ex))
    (hra : rstA (RedisSessionStore.key sid) = none) :
    MemorySessionStore.get stP sid now
      = (if d.expired now then (none, MemorySessionStore.delete stP sid)
         else (some d, stP)) ∧
    (MemorySessionStore.delete stP sid) sid = none ∧
    MemorySessionStore.get stA sid now = (none, stA) ∧
    RedisSessionStore.get rstP sid now
      = (if r.expired now then (Except.ok none, RedisSessionStore.delete rstP sid)
         else (Except.ok (some r.toDyn), rstP)) ∧
    (RedisSessionStore.delete rstP sid) (RedisSessionStore.key sid) = none ∧
    RedisSessionStore.get rstA sid now = (Except.ok none, rstA) := by
  refine ⟨?_, by simp [MemorySessionStore.delete], by simp [MemorySessionStore.get, hma],
          ?_, by simp [RedisSessionStore.delete], by simp [RedisSessionStore.get, hra]⟩
  · simp only [MemorySessionStore.get, hm]
  · simp only [RedisSessionStore.get, hr, loads_dumps, dyn_expired_toDyn]
    cases hE : r.expired now <;> simp [hE]

/-- Witness for C1 at id `"abc"`, `now = 5` (past `d0`'s ttl of 2), with
populated and empty stores for both backends. -/
theorem get_lazy_expiration_witness :
    MemorySessionStore.get stP0 "abc" 5
      = (if d0.expired 5 then (none, MemorySessionStore.delete stP0 "abc")
         else (some d0, stP0)) ∧
    (MemorySessionStore.delete stP0 "abc") "abc" = none ∧
    MemorySessionStore.get stA0 "abc" 5 = (none, stA0) ∧
    RedisSessionStore.get rstP0 "abc" 5
      = (if d0.expired 5 then (Except.ok none, RedisSessionStore.delete rstP0 "abc")
         else (Except.ok (some d0.toDyn), rstP0)) ∧
    (RedisSessionStore.delete rstP0 "abc") (RedisSessionStore.key "abc") = none ∧
    RedisSessionStore.get rstA0 "abc" 5 = (Except.ok none, rstA0) :=
  get_lazy_expiration stP0 stA0 rstP0 rstA0 "abc" 5 d0 d0 2 rfl rfl rfl rfl

/-- C5: `save` replaces the stored record as a whole for both backends: the
backend afterwards holds exactly the new record (for Redis, its fresh
serialisation with the expiry re-armed to `ttl`), and a subsequent `get`
returns either the whole new record or absence — never old fields. -/
theorem save_overwrites (st : MemStore) (rst : RedisState) (sid : String)
    (data : SessionData) (now : ℚ) :
    (MemorySessionStore.save st sid data) sid = some data ∧
    MemorySessionStore.get (MemorySessionStore.save st sid data) sid now
      = (if data.expired now
         then (none, MemorySessionStore.delete (MemorySessionStore.save st sid data) sid)
         else (some data, MemorySessionStore.save st sid data)) ∧
    (RedisSessionStore.save rst sid data) (RedisSessionStore.key sid)
      = some (data.dumps, data.ttl) ∧
    RedisSessionStore.get (RedisSessionStore.save rst sid data) sid now
      = (if data.expired now
         then (Except.ok none, RedisSessionStore.delete (RedisSessionStore.save rst sid data) sid)
         else (Except.ok (some data.toDyn), RedisSessionStore.save rst sid data)) := by
  refine ⟨by simp [MemorySessionStore.save], ?_, by simp [RedisSessionStore.save], ?_⟩
  · have h : (MemorySessionStore.save st sid data) sid = some data := by
      simp [MemorySessionStore.save]
    simp only [MemorySessionStore.get, h]
  · have h : (RedisSessionStore.save rst sid data) (RedisSessionStore.key sid)
        = some (data.dumps, data.ttl) := by
      simp [RedisSessionStore.save]
    simp only [RedisSessionStore.get, h, loads_dumps, dyn_expired_toDyn]
    cases hE : data.expired now <;> simp [hE]

/-- C6: `save` stores the record with `last_used` untouched for both
backends; only an explicit `touch` sets `last_used` to the current time
(and changes nothing else). -/
theorem save_does_not_touch (st : MemStore) (rst : RedisState) (sid : String)
    (data : SessionData) (now : ℚ) :
    Option.map SessionData.last_used ((MemorySessionStore.save st sid data) sid)
      = some data.last_used ∧
    ((RedisSessionStore.save rst sid data) (RedisSessionStore.key sid)).map
        (fun p => jget p.1 "last_used")
      = some (some (JValue.jnum data.last_used)) ∧
    (SessionData.touch data now).last_used = now ∧
    SessionData.touch data now = { data with last_used := now } := by
  refine ⟨by simp [MemorySessionStore.save], ?_, rfl, rfl⟩
  simp only [RedisSessionStore.save, if_pos rfl, Option.map_some]
  rfl

/-- C8: the factory checks `REDIS_URL` then `REDIS_URI`, first truthy value
wins and yields the Redis store (construction never raises); with neither
set it yields the memory store. -/
theorem get_store_selector (env : String → Option String) (u : String) :
    (env "REDIS_URL" = some u → u ≠ "" → get_store env = StoreChoice.redisStore u) ∧
    ((env "REDIS_URL" = none ∨ env "REDIS_URL" = some "") →
      env "REDIS_URI" = some u → u ≠ "" → get_store env = StoreChoice.redisStore u) ∧
    (env "REDIS_URL" = none → env "REDIS_URI" = none →
      get_store env = StoreChoice.memoryStore) := by
  refine ⟨?_, ?_, ?_⟩
  · intro h hu
    simp [get_store, pyOrStr, h, hu]
  · rintro (h | h) h2 hu <;> simp [get_store, pyOrStr, h, h2, hu]
  · intro h h2
    simp [get_store, pyOrStr, h, h2]

/-- Witness for C8: an environment with only `REDIS_URL`, one with only
`REDIS_URI`, and an empty one. -/
theorem get_store_selector_witness :
    get_store envR = StoreChoice.redisStore "redis://localhost:6379/0" ∧
    get_store envI = StoreChoice.redisStore "redis://example:6379/1" ∧
    get_store envN = StoreChoice.memoryStore :=
  ⟨(get_store_selector envR "redis://localhost:6379/0").1 rfl (by decide),
   (get_store_selector envI "redis://example:6379/1").2.1 (Or.inl rfl) rfl (by decide),
   (get_store_selector envN "x").2.2 rfl rfl⟩

/-- C4 counterexample: a payload whose four fields are all present but all
of the wrong shape is accepted by `loads` — it does not fail, refuting
"fails whenever any required field is of the wrong shape". -/
theorem loads_shape_cex :
    SessionData.loads badPayload
      = Except.ok ⟨JValue.jint 7, JValue.jstr "two", JValue.jnull, JValue.jstr "f"⟩ :=
  rfl

/-- C4 (amended): `loads` succeeds exactly when the four required keys are
present, and then returns the record built from the raw extracted values
(with a falsy `files` replaced by the empty mapping); values are not
shape-checked. -/
theorem loads_requires_all_keys (p : JValue) :
    ((∃ d, SessionData.loads p = Except.ok d) ↔
      ((jget p "language").isSome ∧ (jget p "ttl").isSome ∧
       (jget p "last_used").isSome ∧ (jget p "files").isSome)) ∧
    (∀ l t lu f, jget p "language" = some l → jget p "ttl" = some t →
      jget p "last_used" = some lu → jget p "files" = some f →
      SessionData.loads p
        = Except.ok ⟨l, t, lu, if jtruthy f then f else JValue.jobj []⟩) := by
  constructor
  · cases hl : jget p "language" <;> cases ht : jget p "ttl" <;>
      cases hf : jget p "files" <;> cases hlu : jget p "last_used" <;>
      simp [SessionData.loads, hl, ht, hf, hlu]
  · intro l t lu f hl ht hlu hf
    simp [SessionData.loads, hl, ht, hf, hlu]

/-- Witness for the amended C4 at a well-formed concrete payload. -/
theorem loads_requires_all_keys_witness :
    SessionData.loads p1
      = Except.ok ⟨JValue.jstr "py", JValue.jint 1, JValue.jnum 0, JValue.jobj []⟩ :=
  (loads_requires_all_keys p1).2 _ _ _ _ rfl rfl rfl rfl

/-- C10: a payload with all four keys whose `files` value is `null` is
accepted: `loads` succeeds and the record's `files` is the empty mapping. -/
theorem loads_null_files (p : JValue) (l t lu : JValue)
    (hl : jget p "language" = some l) (ht : jget p "ttl" = some t)
    (hlu : jget p "last_used" = some lu)
    (hf : jget p "files" = some JValue.jnull) :
    SessionData.loads p = Except.ok ⟨l, t, lu, JValue.jobj []⟩ := by
  simp [SessionData.loads, hl, ht, hlu, hf, jtruthy]

/-- Witness for C10 at a concrete payload with `"files": null`. -/
theorem loads_null_files_witness :
    SessionData.loads pNull
      = Except.ok ⟨JValue.jstr "py", JValue.jint 1, JValue.jnum 0, JValue.jobj []⟩ :=
  loads_null_files pNull _ _ _ rfl rfl rfl rfl
